import Mathlib

/-!
Shallow embedding of the Stupyder scripting host (Masterchef365/stupyder).

Source files embedded:
  * `src/plot.rs`   — the `pyplotter` module: the script-callable `plot`
    function, the thread-local command buffer with `dump_commands`, and the
    `PlotCommand` type.
  * `src/main.rs`   — the `Kernel` (load/run over a rustpython interpreter),
    the `TemplateApp::update` refresh cycle, `per_frame_event_handlers` and
    the async file-pick result slot.

The external rustpython VM (compile / run_code_obj), and the external
`draw_plots` renderer, are modelled as an abstract `VM` parameter: the
theorems hold for every behaviour of those external collaborators.
-/

namespace Stupyder

/-! ### Plot command buffer (src/plot.rs) -/

/-- A float64 n-dimensional array (`PyNdArrayFloat64` from the
`rustpython_ndarray` crate): a dynamic shape plus flat element data.
Element values are `f64` in the source; they are modelled with `Int`
entries because no claim computes with the element values — only the
runtime class of the object and its shape matter here. -/
structure PyNdArrayFloat64 where
  shape : List Nat
  data : List Int
deriving DecidableEq

/-- A Python runtime value as far as `plot`'s downcasts can distinguish:
either a float64 ndarray (the only class `downcast::<PyNdArrayFloat64>`
accepts), a float32 ndarray (payload elided — the downcast only inspects
the runtime class), or any other Python object (lists, scalars, strings,
...). -/
inductive PyValue where
  | ndF64 (arr : PyNdArrayFloat64)
  | ndF32
  | other
deriving DecidableEq

/-- The result of `x.downcast::<PyNdArrayFloat64>()`: succeeds exactly when
the runtime class is `PyNdArrayFloat64`, independent of the array's shape. -/
def downcastF64 : PyValue → Option PyNdArrayFloat64
  | .ndF64 a => some a
  | .ndF32 => none
  | .other => none

/-- `PlotCommand` as declared at src/plot.rs:31-36: a single variant
`PlotXY` holding the two downcast float64 arrays. -/
inductive PlotCommand where
  | PlotXY (x y : PyNdArrayFloat64)
deriving DecidableEq

/-- The payload of a plot command. -/
def PlotCommand.args : PlotCommand → PyNdArrayFloat64 × PyNdArrayFloat64
  | .PlotXY x y => (x, y)

/-- The script-callable `pyplotter::plot(x, y)` (src/plot.rs:15-24),
threaded explicitly through the thread-local `COMMANDS` buffer. It
downcasts `x`, then `y`, to `PyNdArrayFloat64`, raising a runtime error
("X Must be float32" / "Y Must be float32") on the first failure; only
when both downcasts succeed is one `PlotXY` command pushed. Returns the
script-level result together with the buffer after the call. -/
def plot (x y : PyValue) (commands : List PlotCommand) :
    Except String Unit × List PlotCommand :=
  match downcastF64 x with
  | none => (.error "X Must be float32", commands)
  | some xa =>
    match downcastF64 y with
    | none => (.error "Y Must be float32", commands)
    | some ya => (.ok (), commands ++ [PlotCommand.PlotXY xa ya])

/-- `pyplotter::dump_commands` (src/plot.rs:26-28): `std::mem::take` of the
thread-local buffer — returns the full contents and leaves the buffer
empty. -/
def dump_commands (commands : List PlotCommand) :
    List PlotCommand × List PlotCommand :=
  (commands, [])

/-! ### Kernel (src/main.rs:427-515) -/

/-- The persistent interpreter scope (`rustpython_vm::scope::Scope`):
variable bindings accumulated across runs, opaque to the host. Modelled
as an association list of bindings. -/
abbrev Scope := List (String × Int)

/-- An opaque compiled-code handle (`PyRef<PyCode>`). -/
structure Artifact where
  id : Nat
deriving DecidableEq

/-- What one execution of a compiled artifact by the external VM does:
the scope after execution (mutations up to a fault are kept), the stdout
lines pushed into the log during execution (via `install_stdout`), the
plot commands pushed by script-side `plot` calls, and the formatted
exception trace when a runtime fault occurred. -/
structure ExecOutcome where
  scope : Scope
  prints : List String
  plots : List PlotCommand
  fault : Option String

/-- The external collaborators, abstracted: `compile` is
`vm.compile(..., Mode::Exec, ...)` returning either an artifact or a
formatted compile-error description; `exec` is `vm.run_code_obj` on a
scope; `initScope` is `vm.new_scope_with_builtins()`; `draw` is the
external `rustpython_plotters::draw_plots`, abstracted to its observable
effect at the call site — it may fail with an error string which
`update` logs (src/main.rs:261-263). -/
structure VM where
  compile : String → Except String Artifact
  exec : Artifact → Scope → ExecOutcome
  initScope : Scope
  draw : List PlotCommand → Option String

/-- The `Kernel` state (src/main.rs:105-110): the shared log buffer, the
persistent scope, and the optional compiled artifact. -/
structure Kernel where
  logs : List String
  scope : Scope
  code_obj : Option Artifact
deriving DecidableEq

/-- `Kernel::new` (src/main.rs:428-463): fresh empty logs, a fresh scope
with builtins, no compiled artifact. -/
def Kernel.new (vm : VM) : Kernel :=
  { logs := [], scope := vm.initScope, code_obj := none }

/-- `Kernel::load` (src/main.rs:473-493): compiles the code. On success
stores the artifact and returns true; on failure appends one
"Compile error: ..." line to the logs, leaves the artifact as it was,
and returns false. -/
def Kernel.load (vm : VM) (k : Kernel) (code : String) : Bool × Kernel :=
  match vm.compile code with
  | .ok obj => (true, { k with code_obj := some obj })
  | .error compile_err =>
    (false, { k with logs := k.logs ++ ["Compile error: " ++ compile_err] })

/-- `Kernel::new_with_code` (src/main.rs:465-469): a fresh kernel that has
loaded the given code. -/
def Kernel.new_with_code (vm : VM) (code : String) : Kernel :=
  (Kernel.load vm (Kernel.new vm) code).2

/-- `Kernel::run` (src/main.rs:495-514), threaded through the thread-local
plot command buffer that script-side `plot` calls push into. With no
stored artifact it does nothing. Otherwise it executes the artifact
against the current persistent scope; stdout writes land in the logs, and
if a runtime fault occurred its formatted trace is appended prefixed
"Error: ". The artifact is never touched and nothing is recompiled. -/
def Kernel.run (vm : VM) (k : Kernel) (buf : List PlotCommand) :
    Kernel × List PlotCommand :=
  match k.code_obj with
  | none => (k, buf)
  | some code =>
    let outcome := vm.exec code k.scope
    let logs := k.logs ++ outcome.prints
    let logs := match outcome.fault with
      | some e => logs ++ ["Error: " ++ e]
      | none => logs
    ({ k with scope := outcome.scope, logs := logs }, buf ++ outcome.plots)

/-! ### Application state and refresh cycle (src/main.rs:97-347) -/

/-- `RunSchedule` (src/main.rs:120-127). -/
inductive RunSchedule where
  | EachFrame
  | OnInteract
  | OnCompileSuccess
  | Manual
deriving DecidableEq

/-- `SaveData` (src/main.rs:112-118). -/
structure SaveData where
  file_name : String
  source_code : String
  run_schedule : RunSchedule
deriving DecidableEq

/-- `TemplateApp` (src/main.rs:97-103). `load_file_event` is the async
result slot (`Arc<Mutex<Option<(String, String)>>>`), holding
`(source text, file name)` when a background pick completed. -/
structure TemplateApp where
  save_data : SaveData
  plot_info : List PlotCommand
  load_file_event : Option (String × String)
  kernel : Kernel
deriving DecidableEq

/-- A background pick completion writing its result into the slot
(src/main.rs:359 / 371): `*event.lock().unwrap() = Some((code, name))`
overwrites whatever the slot held. The mutex serialises racing writers,
so two near-simultaneous completions are two such writes in some order. -/
def slot_write (result : String × String) (_slot : Option (String × String)) :
    Option (String × String) :=
  some result

/-- `TemplateApp::per_frame_event_handlers` (src/main.rs:342-347): `take`s
the slot (leaving it empty) and, if a result was present, replaces the
source document's text and file name with it. -/
def per_frame_event_handlers (app : TemplateApp) : TemplateApp :=
  match app.load_file_event with
  | some (code, name) =>
    { app with
      load_file_event := none
      save_data := { app.save_data with source_code := code, file_name := name } }
  | none => app

/-- The UI events of one refresh cycle that feed `update`'s state
machine: whether any user interaction occurred this cycle, the "Run ▶",
"Reset ↺" and "Clear" button clicks, a Run-mode menu selection, and the
editor's new text when the user edited the source
(`editor_resp.changed()` is `editor_new_text.isSome`). The File-menu
actions (Open/Save/Load default/Export) only spawn background tasks that
feed the async slot, or re-draw `plot_info` to an SVG backend; they do
not alter the per-cycle run/draw state machine and are modelled through
`slot_write` separately. -/
structure FrameInput where
  interaction : Bool
  run_clicked : Bool
  reset_clicked : Bool
  clear_clicked : Bool
  schedule_select : Option RunSchedule
  editor_new_text : Option String
deriving DecidableEq

/-- The externally observable events of one `update` call: the commands
handed to `draw_plots` by the side panel this cycle, whether
`ctx.request_repaint()` was called, whether `kernel.run()` was invoked,
and the plot commands produced by this cycle's run (empty when no run
fired). -/
structure FrameOutput where
  drawn : List PlotCommand
  repaint_requested : Bool
  ran : Bool
  run_plots : List PlotCommand
deriving DecidableEq

/-- The cadence match opening `update` (src/main.rs:169-177): the initial
`do_run` decision, paired with whether `ctx.request_repaint()` was
called. `OnInteract` yields `do_run = true` with no further condition;
only `EachFrame` additionally requests a repaint. -/
def cadence_init : RunSchedule → Bool × Bool
  | .OnCompileSuccess => (false, false)
  | .Manual => (false, false)
  | .OnInteract => (true, false)
  | .EachFrame => (true, true)

/-- The top-panel Run-mode menu (src/main.rs:204-226): a selection
replaces the schedule in `save_data`. -/
def apply_schedule_select (i : FrameInput) (app : TemplateApp) : TemplateApp :=
  match i.schedule_select with
  | some m => { app with save_data := { app.save_data with run_schedule := m } }
  | none => app

/-- The right side panel (src/main.rs:253-267): replays `plot_info`
through the external `draw_plots`; a draw error is pushed onto the logs. -/
def side_panel_draw (vm : VM) (app : TemplateApp) : TemplateApp :=
  match vm.draw app.plot_info with
  | some e =>
    { app with kernel := { app.kernel with logs := app.kernel.logs ++ [e] } }
  | none => app

/-- The "Reset ↺" button (src/main.rs:277-279): replaces the kernel with
a fresh one that has loaded the current source. -/
def apply_reset (vm : VM) (i : FrameInput) (app : TemplateApp) : TemplateApp :=
  if i.reset_clicked then
    { app with kernel := Kernel.new_with_code vm app.save_data.source_code }
  else app

/-- The console "Clear" button (src/main.rs:284-288): empties the logs. -/
def apply_clear (i : FrameInput) (app : TemplateApp) : TemplateApp :=
  if i.clear_clicked then
    { app with kernel := { app.kernel with logs := [] } }
  else app

/-- The central-panel editor followed by the reload-on-change step
(src/main.rs:304-328): when the user edited the text, `save_data` takes
the new text and the kernel reloads it; `new_code_loaded` is the load's
success. -/
def editor_step (vm : VM) (i : FrameInput) (app : TemplateApp) :
    Bool × TemplateApp :=
  match i.editor_new_text with
  | some t =>
    let app2 := { app with save_data := { app.save_data with source_code := t } }
    let r := Kernel.load vm app2.kernel app2.save_data.source_code
    (r.1, { app2 with kernel := r.2 })
  | none => (false, app)

/-- `TemplateApp::update` (src/main.rs:166-338), one refresh cycle, in
source order: poll the async slot (line 167); the cadence match
initialises `do_run` (lines 169-177); the Run-mode menu (lines 204-226);
the side panel draws `plot_info` (lines 253-267); the Run button forces
`do_run`, Reset and Clear act on the kernel (lines 273-288); the editor
and the reload-on-change (lines 304-328); a successful load in
`OnCompileSuccess` mode forces `do_run` (lines 330-332); finally, if
`do_run`, the kernel runs and the thread-local command buffer is drained
into `plot_info` (lines 334-337). Returns the new app state, the new
thread-local command buffer, and the cycle's observable events. -/
def update (vm : VM) (app : TemplateApp) (cmdbuf : List PlotCommand)
    (i : FrameInput) : TemplateApp × List PlotCommand × FrameOutput :=
  let app1 := per_frame_event_handlers app
  let init := cadence_init app1.save_data.run_schedule
  let app2 := apply_schedule_select i app1
  let drawn := app2.plot_info
  let app3 := side_panel_draw vm app2
  let app4 := apply_clear i (apply_reset vm i app3)
  let loaded := editor_step vm i app4
  let app5 := loaded.2
  let do_run := (init.1 || i.run_clicked) ||
    (loaded.1 && app5.save_data.run_schedule == RunSchedule.OnCompileSuccess)
  if do_run then
    let kr := Kernel.run vm app5.kernel cmdbuf
    let run_plots := kr.2.drop cmdbuf.length
    let dumped := dump_commands kr.2
    ({ app5 with kernel := kr.1, plot_info := dumped.1 }, dumped.2,
     { drawn := drawn, repaint_requested := init.2, ran := true,
       run_plots := run_plots })
  else
    (app5, cmdbuf,
     { drawn := drawn, repaint_requested := init.2, ran := false,
       run_plots := [] })

/-! ### Concrete fixtures used by witnesses and counterexamples -/

/-- A one-dimensional float64 array `[0, 1, 2]`. -/
def arr1d : PyNdArrayFloat64 := { shape := [3], data := [0, 1, 2] }

/-- A two-dimensional float64 array of shape 2×2. -/
def arr2d : PyNdArrayFloat64 := { shape := [2, 2], data := [0, 1, 2, 3] }

/-- One concrete plot command. -/
def cmdA : PlotCommand := .PlotXY arr1d arr1d

/-- A concrete VM whose scripts run without fault, print one line and
push one plot command. -/
def vmRun : VM :=
  { compile := fun s => .ok { id := s.length }
    exec := fun _ sc =>
      { scope := sc ++ [("x", 1)], prints := ["hi"], plots := [cmdA], fault := none }
    initScope := []
    draw := fun _ => none }

/-- A concrete VM on which every compile fails. -/
def vmFail : VM :=
  { compile := fun _ => .error "invalid syntax"
    exec := fun _ sc => { scope := sc, prints := [], plots := [], fault := none }
    initScope := []
    draw := fun _ => none }

/-- A concrete VM whose scripts always raise a runtime fault after one
print. -/
def vmFault : VM :=
  { compile := fun s => .ok { id := s.length }
    exec := fun _ sc =>
      { scope := sc ++ [("y", 2)], prints := ["partial"], plots := [],
        fault := some "Traceback: boom" }
    initScope := []
    draw := fun _ => none }

/-- A kernel with no stored artifact. -/
def kEmpty : Kernel := { logs := [], scope := [], code_obj := none }

/-- A kernel holding a compiled artifact. -/
def kLoaded : Kernel := { logs := [], scope := [], code_obj := some { id := 0 } }

/-- An app in `OnInteract` mode with a loaded kernel and no pending
events. -/
def appInteract : TemplateApp :=
  { save_data :=
      { file_name := "a.py", source_code := "", run_schedule := .OnInteract }
    plot_info := []
    load_file_event := none
    kernel := kLoaded }

/-- An app in `EachFrame` mode with a loaded kernel. -/
def appLoaded : TemplateApp :=
  { save_data :=
      { file_name := "a.py", source_code := "", run_schedule := .EachFrame }
    plot_info := []
    load_file_event := none
    kernel := kLoaded }

/-- A frame with no user events at all. -/
def inputQuiet : FrameInput :=
  { interaction := false, run_clicked := false, reset_clicked := false,
    clear_clicked := false, schedule_select := none, editor_new_text := none }

/-! ### Helper lemmas -/

/-- Polling the async slot never changes the run schedule. -/
theorem per_frame_preserves_schedule (app : TemplateApp) :
    (per_frame_event_handlers app).save_data.run_schedule
      = app.save_data.run_schedule := by
  unfold per_frame_event_handlers
  cases h : app.load_file_event with
  | none => rfl
  | some r => cases r; rfl

/-- Polling the async slot never changes the plot info. -/
theorem per_frame_preserves_plot_info (app : TemplateApp) :
    (per_frame_event_handlers app).plot_info = app.plot_info := by
  unfold per_frame_event_handlers
  cases h : app.load_file_event with
  | none => rfl
  | some r => cases r; rfl

/-- The buffer returned by `Kernel.run` extends the buffer it was given. -/
theorem run_buffer_extends (vm : VM) (k : Kernel) (buf : List PlotCommand) :
    (Kernel.run vm k buf).2 = buf ++ (Kernel.run vm k buf).2.drop buf.length := by
  unfold Kernel.run
  cases h : k.code_obj with
  | none => simp
  | some c => simp [List.drop_left]

/-- Changing the run schedule does not change the plot info. -/
theorem apply_schedule_select_plot_info (i : FrameInput) (app : TemplateApp) :
    (apply_schedule_select i app).plot_info = app.plot_info := by
  unfold apply_schedule_select
  cases i.schedule_select <;> rfl

/-- The commands handed to `draw_plots` in a cycle are the `plot_info`
stored when the cycle began: the side-panel replay precedes the run step
inside `update`, and nothing before it modifies `plot_info`. -/
theorem update_drawn (vm : VM) (app : TemplateApp) (buf : List PlotCommand)
    (i : FrameInput) :
    (update vm app buf i).2.2.drawn = app.plot_info := by
  simp only [update]
  split <;>
    simp [apply_schedule_select_plot_info, per_frame_preserves_plot_info]

/-- When a cycle's run fired, the new `plot_info` is the pre-cycle
thread-local buffer followed by the commands this run produced, and the
thread-local buffer is left empty. -/
theorem update_run_drains (vm : VM) (app : TemplateApp)
    (cmdbuf : List PlotCommand) (i : FrameInput)
    (h : (update vm app cmdbuf i).2.2.ran = true) :
    (update vm app cmdbuf i).1.plot_info
      = cmdbuf ++ (update vm app cmdbuf i).2.2.run_plots ∧
    (update vm app cmdbuf i).2.1 = [] := by
  simp only [update] at h ⊢
  split at h
  next hcond =>
    rw [if_pos hcond]
    exact ⟨run_buffer_extends vm _ cmdbuf, rfl⟩
  next => simp at h

/-! ### Claim theorems -/

/-- C1 (counterexample). In `OnInteract` mode a refresh cycle in which no
user interaction occurred at all still triggers `run()`: the cadence
match at src/main.rs:172 returns `true` unconditionally for
`OnInteract`, with no interaction check anywhere in `update`. This
refutes the claim that `run()` fires only in cycles with an
interaction. -/
theorem oninteract_cycle_without_interaction_still_runs :
    appInteract.save_data.run_schedule = RunSchedule.OnInteract ∧
    inputQuiet.interaction = false ∧
    inputQuiet.run_clicked = false ∧
    (update vmRun appInteract [] inputQuiet).2.2.ran = true :=
  ⟨rfl, rfl, rfl, rfl⟩

/-- C1 (amended). In `OnInteract` run-cadence mode, `update` triggers
`run()` every refresh cycle, unconditionally on the cycle's events; the
only difference from `EachFrame` is that no continuous repaint is
requested, so new cycles occur only when the framework repaints
(typically upon interaction). -/
theorem oninteract_runs_every_cycle (vm : VM) (app : TemplateApp)
    (buf : List PlotCommand) (i : FrameInput)
    (h : app.save_data.run_schedule = RunSchedule.OnInteract) :
    (update vm app buf i).2.2.ran = true ∧
    (update vm app buf i).2.2.repaint_requested = false := by
  have hs := (per_frame_preserves_schedule app).trans h
  simp only [update, hs, cadence_init]
  simp

/-- C1 (witness). The amended theorem applied at a concrete app in
`OnInteract` mode and a concrete quiet frame. -/
theorem oninteract_runs_every_cycle_witness :
    (update vmRun appInteract [] inputQuiet).2.2.ran = true ∧
    (update vmRun appInteract [] inputQuiet).2.2.repaint_requested = false :=
  oninteract_runs_every_cycle vmRun appInteract [] inputQuiet rfl

/-- C2 (counterexample). A cycle whose run produced the command `cmdA`
drew nothing: the side-panel replay (src/main.rs:253-267) happens before
the run step (src/main.rs:334-337) inside the same `update` call, so the
commands recorded by a run are not drawn in the cycle in which the run
executed. -/
theorem run_output_not_drawn_same_cycle :
    (update vmRun appLoaded [] inputQuiet).2.2.ran = true ∧
    (update vmRun appLoaded [] inputQuiet).2.2.run_plots = [cmdA] ∧
    (update vmRun appLoaded [] inputQuiet).2.2.drawn = [] ∧
    ([cmdA] : List PlotCommand) ≠ [] :=
  ⟨rfl, rfl, rfl, by simp⟩

/-- C2 (amended). Within one refresh cycle, `run()` happens-before the
`dump_commands` drain of the commands produced by that same run: the
drained sequence (prior buffer contents followed by this run's commands)
is stored into `plot_info` and the thread-local buffer is emptied. Those
commands are then drawn by the rendering replay of the next refresh
cycle, whose side panel draws exactly the `plot_info` stored by the
previous cycle. -/
theorem run_commands_drawn_next_cycle (vm : VM) (app : TemplateApp)
    (buf : List PlotCommand) (i1 i2 : FrameInput)
    (h : (update vm app buf i1).2.2.ran = true) :
    (update vm app buf i1).1.plot_info
      = buf ++ (update vm app buf i1).2.2.run_plots ∧
    (update vm app buf i1).2.1 = [] ∧
    (update vm (update vm app buf i1).1 (update vm app buf i1).2.1 i2).2.2.drawn
      = buf ++ (update vm app buf i1).2.2.run_plots := by
  obtain ⟨h1, h2⟩ := update_run_drains vm app buf i1 h
  exact ⟨h1, h2, (update_drawn vm _ _ i2).trans h1⟩

/-- C2 (witness). The amended theorem applied at a concrete running app:
the cycle's run produced commands, they were drained into `plot_info`,
and the following cycle draws them. -/
theorem run_commands_drawn_next_cycle_witness :
    (update vmRun appLoaded [] inputQuiet).2.2.ran = true ∧
    ((update vmRun appLoaded [] inputQuiet).1.plot_info
      = [] ++ (update vmRun appLoaded [] inputQuiet).2.2.run_plots ∧
     (update vmRun appLoaded [] inputQuiet).2.1 = [] ∧
     (update vmRun (update vmRun appLoaded [] inputQuiet).1
        (update vmRun appLoaded [] inputQuiet).2.1 inputQuiet).2.2.drawn
      = [] ++ (update vmRun appLoaded [] inputQuiet).2.2.run_plots) :=
  ⟨rfl, run_commands_drawn_next_cycle vmRun appLoaded [] inputQuiet inputQuiet rfl⟩

/-- C3 (counterexample). A two-dimensional float64 series passes `plot`'s
validation and is recorded for drawing: the downcasts at
src/plot.rs:17-18 check only the runtime class `PyNdArrayFloat64`, never
the shape, so `plot` succeeds on a 2×2 array and pushes the command. -/
theorem plot_accepts_two_dimensional_series :
    arr2d.shape = [2, 2] ∧
    plot (PyValue.ndF64 arr2d) (PyValue.ndF64 arr2d) []
      = (Except.ok (), [PlotCommand.PlotXY arr2d arr2d]) :=
  ⟨rfl, rfl⟩

/-- C3 (amended). `plot` validates only the runtime type of its inputs:
it succeeds exactly when both `x` and `y` downcast to `PyNdArrayFloat64`
(raising a script-level error on the first argument that does not,
leaving the buffer unchanged), and records one command built from the
downcast arrays when both succeed — regardless of dimensionality, so a
two-dimensional float64 array is accepted and recorded. -/
theorem plot_validates_runtime_type_only (x y : PyValue)
    (buf : List PlotCommand) :
    ((plot x y buf).1 = Except.ok ()
      ↔ (downcastF64 x).isSome ∧ (downcastF64 y).isSome) ∧
    (∀ xa ya, downcastF64 x = some xa → downcastF64 y = some ya →
      plot x y buf = (Except.ok (), buf ++ [PlotCommand.PlotXY xa ya])) := by
  refine ⟨?_, ?_⟩
  · unfold plot
    cases hx : downcastF64 x <;> cases hy : downcastF64 y <;> simp [hx, hy]
  · intro xa ya hx hy
    unfold plot
    rw [hx, hy]

/-- C3 (witness). The amended theorem applied at two concrete 1-D arrays:
both downcasts succeed and the command is recorded. -/
theorem plot_validates_runtime_type_only_witness :
    plot (PyValue.ndF64 arr1d) (PyValue.ndF64 arr1d) []
      = (Except.ok (), [PlotCommand.PlotXY arr1d arr1d]) :=
  (plot_validates_runtime_type_only (PyValue.ndF64 arr1d)
    (PyValue.ndF64 arr1d) []).2 arr1d arr1d rfl rfl

/-- C4 (counterexample). This proves the negation of the four-variant
claim: no `PlotCommand` (src/plot.rs:31-36) lies outside the single form
`PlotXY x y` — in particular the `SetTitle("A")` command that opens the
claim's replay sequence cannot exist, since there are no `SetTitle`,
`SetXRange`, `SetYRange` or labelled `PlotSeries` variants, so the
replay sequence the claim describes is not constructible. -/
theorem plot_command_has_single_variant :
    (∃ c : PlotCommand, ∀ x y, c ≠ PlotCommand.PlotXY x y) ↔ False := by
  constructor
  · rintro ⟨c, hc⟩
    cases c with
    | PlotXY x y => exact hc x y rfl
  · exact False.elim

/-- C4 (amended). A plot command is the single tagged variant
`PlotXY(x, y)` carrying the two downcast float64 arrays; it is fully
determined by that payload. -/
theorem plot_command_args_complete :
    ∀ c : PlotCommand,
      c = PlotCommand.PlotXY (PlotCommand.args c).1 (PlotCommand.args c).2 := by
  intro c
  cases c
  rfl

/-- C5. For every source text that fails to compile, `load` returns
false, appends exactly one "Compile error: ..." diagnostic to the log
buffer, and leaves the kernel otherwise untouched — in particular the
previously stored compiled artifact and the scope are unchanged, so a
prior successful artifact remains runnable as-is. -/
theorem load_failure_logs_once_keeps_artifact (vm : VM) (k : Kernel)
    (code err : String) (h : vm.compile code = .error err) :
    Kernel.load vm k code
      = (false, { k with logs := k.logs ++ ["Compile error: " ++ err] }) ∧
    (Kernel.load vm k code).2.code_obj = k.code_obj ∧
    (Kernel.load vm k code).2.scope = k.scope := by
  unfold Kernel.load
  rw [h]
  exact ⟨rfl, rfl, rfl⟩

/-- C5 (witness). The theorem applied at a VM on which the compile
fails, with a previously loaded artifact in place. -/
theorem load_failure_logs_once_keeps_artifact_witness :
    Kernel.load vmFail kLoaded "a ="
      = (false, { kLoaded with logs :=
          kLoaded.logs ++ ["Compile error: " ++ "invalid syntax"] }) ∧
    (Kernel.load vmFail kLoaded "a =").2.code_obj = some { id := 0 } :=
  ⟨(load_failure_logs_once_keeps_artifact vmFail kLoaded "a =" "invalid syntax"
      rfl).1,
   (load_failure_logs_once_keeps_artifact vmFail kLoaded "a =" "invalid syntax"
      rfl).2.1⟩

/-- C6. For every source text that compiles successfully, `load` returns
true and stores the new artifact wholesale, and a subsequent `run()`
leaves the stored artifact unchanged. -/
theorem load_success_run_preserves_artifact (vm : VM) (k : Kernel)
    (code : String) (a : Artifact) (buf : List PlotCommand)
    (h : vm.compile code = .ok a) :
    Kernel.load vm k code = (true, { k with code_obj := some a }) ∧
    (Kernel.run vm (Kernel.load vm k code).2 buf).1.code_obj = some a := by
  have hl : Kernel.load vm k code = (true, { k with code_obj := some a }) := by
    unfold Kernel.load
    rw [h]
  refine ⟨hl, ?_⟩
  rw [hl]
  unfold Kernel.run
  cases hf : (vm.exec a ({ k with code_obj := some a } : Kernel).scope).fault <;>
    simp [hf]

/-- C6 (witness). The theorem applied at a VM on which the compile
succeeds, showing the stored artifact before and after a `run`. -/
theorem load_success_run_preserves_artifact_witness :
    Kernel.load vmRun kEmpty "" = (true, { kEmpty with code_obj := some { id := 0 } }) ∧
    (Kernel.run vmRun (Kernel.load vmRun kEmpty "").2 []).1.code_obj
      = some { id := 0 } :=
  load_success_run_preserves_artifact vmRun kEmpty "" { id := 0 } [] rfl

/-- C7. `run()` with no stored artifact is a no-op. If the stored
artifact's execution raises a runtime fault, the formatted trace is
appended to the log buffer prefixed "Error: " (after the lines printed
before the fault), the stored artifact survives unchanged, and the
persistent scope survives as the scope execution left it — the kernel
remains usable for the next run (`run` is a total function; no failure
escapes it). `run` never recompiles: its result depends only on the
VM's `exec`, not on its `compile`. -/
theorem run_fault_logged_state_survives (vm vm2 : VM) (k : Kernel)
    (buf : List PlotCommand) (c : Artifact) (e : String) :
    (k.code_obj = none → Kernel.run vm k buf = (k, buf)) ∧
    (k.code_obj = some c → (vm.exec c k.scope).fault = some e →
      (Kernel.run vm k buf).1.logs
        = k.logs ++ (vm.exec c k.scope).prints ++ ["Error: " ++ e] ∧
      (Kernel.run vm k buf).1.code_obj = some c ∧
      (Kernel.run vm k buf).1.scope = (vm.exec c k.scope).scope) ∧
    (vm2.exec = vm.exec → Kernel.run vm2 k buf = Kernel.run vm k buf) := by
  refine ⟨fun h => ?_, fun h hf => ?_, fun h => ?_⟩
  · unfold Kernel.run
    rw [h]
  · unfold Kernel.run
    rw [h]
    simp [hf]
  · unfold Kernel.run
    rw [h]

/-- C7 (witness). The no-op and fault conjuncts applied at a concrete
faulting VM: run on an artifact-less kernel returns it untouched; run on
a loaded kernel logs the printed line and then the "Error: "-prefixed
trace, and keeps the artifact. -/
theorem run_fault_logged_state_survives_witness :
    Kernel.run vmFault kEmpty [] = (kEmpty, []) ∧
    (Kernel.run vmFault kLoaded []).1.logs
      = kLoaded.logs ++ (vmFault.exec { id := 0 } kLoaded.scope).prints
          ++ ["Error: " ++ "Traceback: boom"] ∧
    (Kernel.run vmFault kLoaded []).1.code_obj = some { id := 0 } :=
  ⟨(run_fault_logged_state_survives vmFault vmFault kEmpty [] { id := 0 }
      "Traceback: boom").1 rfl,
   ((run_fault_logged_state_survives vmFault vmFault kLoaded [] { id := 0 }
      "Traceback: boom").2.1 rfl rfl).1,
   ((run_fault_logged_state_survives vmFault vmFault kLoaded [] { id := 0 }
      "Traceback: boom").2.1 rfl rfl).2.1⟩

/-- C8. Draining the plot command buffer empties it: the first drain
yields the whole contents, and a second drain with no intervening script
execution yields the empty sequence, for every prior buffer contents. -/
theorem dump_commands_second_drain_empty (buf : List PlotCommand) :
    (dump_commands buf).1 = buf ∧
    dump_commands (dump_commands buf).2 = ([], []) :=
  ⟨rfl, rfl⟩

/-- C9. The async result slot delivers at most one result per poll: when
two pick completions write before the same poll, the poll observes
exactly the last-written result, applies it to the source document's
text and name, and leaves the cell empty — a second poll finds nothing
and changes nothing. -/
theorem async_slot_last_write_wins (app : TemplateApp)
    (r1 r2 : String × String) :
    let app1 := { app with
      load_file_event := slot_write r2 (slot_write r1 app.load_file_event) }
    (per_frame_event_handlers app1).save_data.source_code = r2.1 ∧
    (per_frame_event_handlers app1).save_data.file_name = r2.2 ∧
    (per_frame_event_handlers app1).load_file_event = none ∧
    per_frame_event_handlers (per_frame_event_handlers app1)
      = per_frame_event_handlers app1 := by
  obtain ⟨c, n⟩ := r2
  exact ⟨rfl, rfl, rfl, rfl⟩

/-- C10. A `plot(x, y)` call that returns a script-level error leaves the
plot command buffer unchanged: the command is pushed only after both the
`x` and the `y` downcast have succeeded. -/
theorem plot_error_leaves_buffer_unchanged (x y : PyValue)
    (buf : List PlotCommand) (e : String)
    (h : (plot x y buf).1 = .error e) :
    (plot x y buf).2 = buf := by
  unfold plot at h ⊢
  cases hx : downcastF64 x <;> cases hy : downcastF64 y <;>
    simp [hx, hy] at h ⊢

/-- C10 (witness). The theorem applied at a failing first argument: the
call errors and the pre-existing buffer is untouched. -/
theorem plot_error_leaves_buffer_unchanged_witness :
    (plot PyValue.other (PyValue.ndF64 arr1d) [cmdA]).1
      = Except.error "X Must be float32" ∧
    (plot PyValue.other (PyValue.ndF64 arr1d) [cmdA]).2 = [cmdA] :=
  ⟨rfl, plot_error_leaves_buffer_unchanged PyValue.other (PyValue.ndF64 arr1d)
    [cmdA] "X Must be float32" rfl⟩

end Stupyder
